import Mathlib

/-
  Verification model of scripts/screenshot.js.

  The script is a single async IIFE driving puppeteer:
  it checks that docs/index.html exists, launches a headless browser with a
  viewport read from PNG_W / PNG_H / PNG_SCALE, navigates to the file, passes
  four bounded wait gates, settles, re-queries the map element, screenshots it
  to docs/aca_map.png, and closes the browser in a finally block.

  The model below embeds: the JS numeric parsing of the environment variables,
  the __dirname-based path resolution, the in-page readiness predicates with
  their bounded polling, and the control flow of the IIFE including the
  Node.js semantics of process.exit (immediate termination: statements after
  it do not run, and an enclosing finally block is not entered).
-/

namespace ACA

/-- Model of the JavaScript idiom `v || d` on strings, as used for the
environment variables: `undefined` (here `none`) and the empty string are
falsy and select the default; any non-empty string is kept. -/
def jsOrDefault (v : Option String) (d : String) : String :=
  match v with
  | none => d
  | some s => if s = "" then d else s

/-- Numeric value of a list of decimal digit characters, most significant
first. -/
def digitsVal (ds : List Char) : Nat :=
  ds.foldl (fun a c => 10 * a + (c.toNat - 48)) 0

/-- Whitespace skipped by the JS numeric parsers. -/
def isJsWs (c : Char) : Bool :=
  c = ' ' || c = '\t' || c = '\n' || c = '\r'

/-- Model of JavaScript parseInt(s, 10): skip leading whitespace, read an
optional sign, then the longest prefix of decimal digits; everything after
that prefix (e.g. a fractional part) is ignored.  `none` models NaN, which
parseInt returns when no digit is found. -/
def parseIntJS (s : String) : Option Int :=
  let cs := s.toList.dropWhile isJsWs
  let p : Int × List Char :=
    match cs with
    | '-' :: r => (-1, r)
    | '+' :: r => (1, r)
    | _ => (1, cs)
  let ds := p.2.takeWhile Char.isDigit
  if ds.isEmpty then none else some (p.1 * (digitsVal ds : Int))

/-- Digit scan of JavaScript parseFloat on the plain decimal grammar:
optional sign, integer digits, optional '.' followed by fractional digits;
at least one digit must be present.  Returns (negative?, numerator, number
of fractional digits), the parsed value being
sign * numerator / 10 ^ fractional-digits.  `none` models NaN.  (The
exponent and Infinity forms, which this program never relies on, are
outside the model.) -/
def floatParts (s : String) : Option (Bool × Nat × Nat) :=
  let cs := s.toList.dropWhile isJsWs
  let p : Bool × List Char :=
    match cs with
    | '-' :: r => (true, r)
    | '+' :: r => (false, r)
    | _ => (false, cs)
  let ip := p.2.takeWhile Char.isDigit
  let rest := p.2.drop ip.length
  let fp : List Char :=
    match rest with
    | '.' :: r => r.takeWhile Char.isDigit
    | _ => []
  if ip.isEmpty && fp.isEmpty then none
  else some (p.1, digitsVal ip * 10 ^ fp.length + digitsVal fp, fp.length)

/-- Model of JavaScript parseFloat: the rational value of the scanned
decimal literal, `none` for NaN. -/
def parseFloatJS (s : String) : Option ℚ :=
  (floatParts s).map
    (fun t => (if t.1 then (-1 : ℚ) else 1) * (t.2.1 : ℚ) / ((10 : ℚ) ^ t.2.2))

/-- The three optional environment variables the script reads. -/
structure Env where
  PNG_W : Option String := none
  PNG_H : Option String := none
  PNG_SCALE : Option String := none
deriving DecidableEq

/-- const WIDTH = parseInt(process.env.PNG_W || "2400", 10) -/
def WIDTH (e : Env) : Option Int := parseIntJS (jsOrDefault e.PNG_W "2400")

/-- const HEIGHT = parseInt(process.env.PNG_H || "1600", 10) -/
def HEIGHT (e : Env) : Option Int := parseIntJS (jsOrDefault e.PNG_H "1600")

/-- const SCALE = parseFloat(process.env.PNG_SCALE || "2") -/
def SCALE (e : Env) : Option ℚ := parseFloatJS (jsOrDefault e.PNG_SCALE "2")

/-- The viewport object handed to puppeteer.launch.  Each field is the raw
parse result (`none` = NaN): the script applies no validation or fallback
beyond the falsy-string default. -/
structure Viewport where
  width : Option Int
  height : Option Int
  deviceScaleFactor : Option ℚ
deriving DecidableEq

/-- defaultViewport: \x7b width: WIDTH, height: HEIGHT, deviceScaleFactor: SCALE \x7d -/
def defaultViewport (e : Env) : Viewport :=
  { width := WIDTH e, height := HEIGHT e, deviceScaleFactor := SCALE e }

/-- An absolute filesystem path, as its list of segments from the root. -/
structure AbsPath where
  segs : List String
deriving DecidableEq

/-- Appending one segment to an absolute path, resolving ".." and "." the
way path.resolve / path.join do on an absolute base. -/
def joinSeg (p : AbsPath) (s : String) : AbsPath :=
  if s = ".." then { segs := p.segs.dropLast }
  else if s = "." || s = "" then p
  else { segs := p.segs ++ [s] }

/-- Appending a list of segments in order. -/
def joinSegs (p : AbsPath) (ss : List String) : AbsPath :=
  ss.foldl joinSeg p

/-- Invocation context of the node process.  Only scriptDir (the value of
__dirname, always absolute in Node) is ever consulted by the path code. -/
structure Ctx where
  cwd : AbsPath
  scriptDir : AbsPath
  argv : List String
  env : Env

/-- const repoRoot = path.resolve(__dirname, "..") — __dirname is absolute,
so resolve never consults the working directory. -/
def repoRoot (c : Ctx) : AbsPath := joinSegs c.scriptDir [".."]

/-- const input = path.join(repoRoot, "docs", "index.html") -/
def inputPath (c : Ctx) : AbsPath := joinSegs (repoRoot c) ["docs", "index.html"]

/-- const output = path.join(repoRoot, "docs", "aca_map.png") -/
def outputPath (c : Ctx) : AbsPath := joinSegs (repoRoot c) ["docs", "aca_map.png"]

/-- Snapshot of the in-page state inspected by the wait gates. -/
structure PageState where
  acaDBTruthy : Bool
  acaLatestTruthy : Bool
  iataTTCount : Nat
  tileComplete : List Bool
  leafletMounted : Bool

/-- The composite readiness predicate of the content gate:
window.ACA_DB && window.ACA_DB.latest &&
document.querySelectorAll(".iata-tt").length > 0. -/
def contentReady (p : PageState) : Bool :=
  p.acaDBTruthy && p.acaLatestTruthy && decide (0 < p.iataTTCount)

/-- The predicate of the tile gate: every .leaflet-tile image reports
img.complete. -/
def tilesReady (p : PageState) : Bool :=
  p.tileComplete.all (fun b => b)

/-- Bounded polling: evaluate the predicate at instants start, start+1, ...
for fuel further steps, returning the first instant at which it holds. -/
def pollFirst (pred : Nat → Bool) : Nat → Nat → Option Nat
  | start, fuel =>
    if pred start then some start
    else
      match fuel with
      | 0 => none
      | f + 1 => pollFirst pred (start + 1) f

/-- Model of page.waitForFunction(pred, \x7b timeout \x7d): the predicate is
re-evaluated in-page until it first holds or the bound elapses; `none`
models the TimeoutError. -/
def waitForFn (pred : Nat → Bool) (timeoutMs : Nat) : Option Nat :=
  pollFirst pred 0 timeoutMs

/-- Timeout of page.goto (ms). -/
def gotoTimeoutMs : Nat := 120000

/-- Timeout of the map-container waitForSelector (ms). -/
def selectorTimeoutMs : Nat := 60000

/-- Timeout of the content-readiness waitForFunction (ms). -/
def contentTimeoutMs : Nat := 60000

/-- Timeout of the tile-load waitForFunction (ms). -/
def tilesTimeoutMs : Nat := 60000

/-- First settle: await sleep(600). -/
def settleAfterFitMs : Nat := 600

/-- Second settle, after the synthetic resize: await sleep(100). -/
def settleAfterResizeMs : Nat := 100

/-- Observable events of one run, in the order the script performs them.
The bounded waits carry their timeout (ms); the settles carry their
duration (ms). -/
inductive Ev where
  | checkInput
  | launch
  | newPage
  | gotoLoad (timeoutMs : Nat)
  | waitSelector (timeoutMs : Nat)
  | waitContent (timeoutMs : Nat)
  | waitTiles (timeoutMs : Nat)
  | settle (ms : Nat)
  | resize
  | queryMapEl
  | screenshot
  | logWrote
  | logFailed
  | closeBrowser
deriving DecidableEq, Repr

/-- The exceptions that can reach the catch block. -/
inductive JsError where
  | gotoTimeout
  | selectorTimeout
  | contentTimeout
  | tilesTimeout
  | mapElNotFound
deriving DecidableEq, Repr

/-- Text logged for each error.  Only mapElNotFound carries a string
authored in the script (line 70); the timeout texts stand for the
library-raised TimeoutError messages. -/
def errText : JsError → String
  | JsError.gotoTimeout => "TimeoutError: navigation"
  | JsError.selectorTimeout => "TimeoutError: waitForSelector .leaflet-container"
  | JsError.contentTimeout => "TimeoutError: waitForFunction"
  | JsError.tilesTimeout => "TimeoutError: waitForFunction"
  | JsError.mapElNotFound => "Leaflet map element not found."

/-- The screenshot actually captured: mapEl.screenshot(\x7b path: output \x7d)
clips to the element bounding box (never the full page) and produces a PNG
whose pixel size is the clip scaled by deviceScaleFactor. -/
structure Shot where
  clip : ℚ × ℚ
  fullPage : Bool
  dims : Option (ℚ × ℚ)
  path : AbsPath
deriving DecidableEq

/-- External-world outcomes a run can encounter: whether the input file
exists, whether each bounded wait meets its condition within its bound, and
the bounding box page.$(".leaflet-container") finds at the re-check
(`none` = element absent). -/
structure World where
  ctx : Ctx
  inputExists : Bool
  navOk : Bool
  selectorOk : Bool
  contentOk : Bool
  tilesOk : Bool
  mapElBox : Option (ℚ × ℚ)

/-- Outcome of the try block: events performed, the exception that escaped
(if any), and the screenshot taken (if reached). -/
structure TryOut where
  trace : List Ev
  err : Option JsError
  shot : Option Shot

/-- The try block of the IIFE (source lines 37-74): newPage, goto, the three
wait gates, the settles and resize, the element re-check, the screenshot and
the success log.  The first failing step throws; no step is retried. -/
def tryBody (w : World) : TryOut :=
  let t1 : List Ev := [Ev.newPage, Ev.gotoLoad gotoTimeoutMs]
  if ¬ w.navOk then { trace := t1, err := some JsError.gotoTimeout, shot := none }
  else
  let t2 := t1 ++ [Ev.waitSelector selectorTimeoutMs]
  if ¬ w.selectorOk then { trace := t2, err := some JsError.selectorTimeout, shot := none }
  else
  let t3 := t2 ++ [Ev.waitContent contentTimeoutMs]
  if ¬ w.contentOk then { trace := t3, err := some JsError.contentTimeout, shot := none }
  else
  let t4 := t3 ++ [Ev.waitTiles tilesTimeoutMs]
  if ¬ w.tilesOk then { trace := t4, err := some JsError.tilesTimeout, shot := none }
  else
  let t5 := t4 ++ [Ev.settle settleAfterFitMs, Ev.resize,
                   Ev.settle settleAfterResizeMs, Ev.queryMapEl]
  match w.mapElBox with
  | none => { trace := t5, err := some JsError.mapElNotFound, shot := none }
  | some b =>
      { trace := t5 ++ [Ev.screenshot, Ev.logWrote]
        err := none
        shot := some { clip := b
                       fullPage := false
                       dims := (SCALE w.ctx.env).map (fun s => (b.1 * s, b.2 * s))
                       path := outputPath w.ctx } }

/-- Result of one process run. -/
structure RunResult where
  exitCode : Nat
  outputWritten : Bool
  launches : Nat
  closes : Nat
  trace : List Ev
  stderrLines : List String
  shot : Option Shot

/-- Diagnostic printed when the input precondition fails (source line 18). -/
def missingInputMsg : String := "Missing docs/index.html. Run generate_map.py first."

/-- The whole async IIFE (source lines 12-81).  process.exit(1) terminates
the Node process at once: no later statement runs and an enclosing finally
block is not entered.  Hence: if the input is missing, the process exits
before puppeteer.launch; and on the catch path (any exception) the process
exits inside the catch, so the browser.close() in the finally never runs.
Only the success path reaches the finally and closes the browser. -/
def run (w : World) : RunResult :=
  if ¬ w.inputExists then
    { exitCode := 1
      outputWritten := false
      launches := 0
      closes := 0
      trace := [Ev.checkInput, Ev.logFailed]
      stderrLines := [missingInputMsg]
      shot := none }
  else
    let t := tryBody w
    match t.err with
    | some e =>
        { exitCode := 1
          outputWritten := false
          launches := 1
          closes := 0
          trace := [Ev.checkInput, Ev.launch] ++ t.trace ++ [Ev.logFailed]
          stderrLines := ["Screenshot failed: " ++ errText e]
          shot := none }
    | none =>
        { exitCode := 0
          outputWritten := t.shot.isSome
          launches := 1
          closes := 1
          trace := [Ev.checkInput, Ev.launch] ++ t.trace ++ [Ev.closeBrowser]
          stderrLines := []
          shot := t.shot }

/-- The full ordered step list; every run trace is a subsequence of it. -/
def masterTrace : List Ev :=
  [Ev.checkInput, Ev.launch, Ev.newPage, Ev.gotoLoad gotoTimeoutMs,
   Ev.waitSelector selectorTimeoutMs, Ev.waitContent contentTimeoutMs,
   Ev.waitTiles tilesTimeoutMs, Ev.settle settleAfterFitMs, Ev.resize,
   Ev.settle settleAfterResizeMs, Ev.queryMapEl, Ev.screenshot, Ev.logWrote,
   Ev.logFailed, Ev.closeBrowser]

/-- The trace of a fully successful run. -/
def successTrace : List Ev :=
  [Ev.checkInput, Ev.launch, Ev.newPage, Ev.gotoLoad gotoTimeoutMs,
   Ev.waitSelector selectorTimeoutMs, Ev.waitContent contentTimeoutMs,
   Ev.waitTiles tilesTimeoutMs, Ev.settle settleAfterFitMs, Ev.resize,
   Ev.settle settleAfterResizeMs, Ev.queryMapEl, Ev.screenshot, Ev.logWrote,
   Ev.closeBrowser]

/-- A fixed invocation context used for concrete runs. -/
def ctx0 : Ctx :=
  { cwd := { segs := ["tmp"] }
    scriptDir := { segs := ["repo", "scripts"] }
    argv := []
    env := {} }

/-- A world in which every step succeeds, with the map container filling
the default 2400x1600 viewport. -/
def wAllOk : World :=
  { ctx := ctx0
    inputExists := true
    navOk := true
    selectorOk := true
    contentOk := true
    tilesOk := true
    mapElBox := some ((2400 : ℚ), (1600 : ℚ)) }

/-- A world in which the input file is missing. -/
def wNoInput : World :=
  { wAllOk with inputExists := false }

/-- A world in which navigation exceeds its 120000 ms bound. -/
def wNavTimeout : World :=
  { wAllOk with navOk := false }

/-- A world in which the content-readiness gate exceeds its bound. -/
def wContentTimeout : World :=
  { wAllOk with contentOk := false }

/-- A world in which the tile-load gate exceeds its bound and everything
else succeeds. -/
def wTilesTimeout : World :=
  { wAllOk with tilesOk := false }

/-- A world in which the map element is gone at the post-settle re-check. -/
def wNoMapEl : World :=
  { wAllOk with mapElBox := none }

/-- The environment override of the spec's example invocation. -/
def envOverride : Env :=
  { PNG_W := some "800", PNG_H := some "600", PNG_SCALE := some "1" }

/-- A fully successful world under the override environment, with the map
container filling the 800x600 viewport. -/
def wOverride : World :=
  { wAllOk with
      ctx := { ctx0 with env := envOverride }
      mapElBox := some ((800 : ℚ), (600 : ℚ)) }

/-- A page whose readiness predicate holds from the first instant. -/
def pageReadyNow : Nat → PageState :=
  fun _ =>
    { acaDBTruthy := true
      acaLatestTruthy := true
      iataTTCount := 1
      tileComplete := []
      leafletMounted := true }

/-- Bounded polling succeeds within [start, start+fuel] exactly when the
predicate holds at some instant of that window. -/
theorem pollFirst_isSome_iff (pred : Nat → Bool) :
    ∀ (fuel start : Nat),
      (pollFirst pred start fuel).isSome = true ↔
        ∃ t, start ≤ t ∧ t ≤ start + fuel ∧ pred t = true := by
  intro fuel
  induction fuel with
  | zero =>
      intro start
      simp only [pollFirst]
      by_cases h : pred start
      · simp [h]
        exact ⟨start, le_refl _, by omega, h⟩
      · simp [h]
        intro t h1 h2
        have : t = start := by omega
        subst this
        simpa using h
  | succ f ih =>
      intro start
      rw [pollFirst]
      by_cases h : pred start
      · simp [h]
        exact ⟨start, le_refl _, by omega, h⟩
      · simp only [h, if_false, Bool.false_eq_true]
        rw [ih (start + 1)]
        constructor
        · rintro ⟨t, h1, h2, h3⟩
          exact ⟨t, by omega, by omega, h3⟩
        · rintro ⟨t, h1, h2, h3⟩
          refine ⟨t, ?_, by omega, h3⟩
          rcases Nat.eq_or_lt_of_le h1 with rfl | hlt
          · simp [h3] at h
          · omega

/-- Parsing the default scale string yields 2. -/
theorem SCALE_default : SCALE {} = some 2 := by
  have h : floatParts "2" = some (false, 2, 0) := by decide
  simp [SCALE, jsOrDefault, parseFloatJS, h]

/-- Parsing the override scale string yields 1. -/
theorem SCALE_envOverride : SCALE envOverride = some 1 := by
  have h : floatParts "1" = some (false, 1, 0) := by decide
  simp [SCALE, envOverride, jsOrDefault, parseFloatJS, h]

/-- Every run's event trace is a subsequence of the master step list. -/
theorem run_trace_sublist (w : World) : (run w).trace.Sublist masterTrace := by
  rcases w with ⟨c, i, n, s, ct, tl, box⟩
  cases i <;> cases n <;> cases s <;> cases ct <;> cases tl <;> cases box <;>
    simp [run, tryBody, masterTrace]

/-- The master step list has no repeated step. -/
theorem masterTrace_nodup : masterTrace.Nodup := by decide

/-- The input path depends on the script directory alone. -/
theorem inputPath_eq (c : Ctx) :
    inputPath c = { segs := c.scriptDir.segs.dropLast ++ ["docs", "index.html"] } := by
  simp [inputPath, repoRoot, joinSegs, joinSeg]

/-- The output path depends on the script directory alone. -/
theorem outputPath_eq (c : Ctx) :
    outputPath c = { segs := c.scriptDir.segs.dropLast ++ ["docs", "aca_map.png"] } := by
  simp [outputPath, repoRoot, joinSegs, joinSeg]

/-- C1: the claim says the browser is released exactly once on every exit
path via the finally block.  The code violates this: on any failure the
catch block calls process.exit(1), which terminates Node immediately, so
the finally block never runs and browser.close() is never executed.  At the
concrete failing input wNavTimeout (input present, navigation times out)
the browser is launched once and closed zero times, while the success path
does close it exactly once. -/
theorem browser_close_skipped_on_failure :
    (run wNavTimeout).launches = 1 ∧ (run wNavTimeout).closes = 0 ∧
    (run wNavTimeout).exitCode = 1 ∧
    (run wAllOk).launches = 1 ∧ (run wAllOk).closes = 1 := by
  refine ⟨?_, ?_, ?_, ?_, ?_⟩ <;> rfl

/-- C2 (counterexample): a run in which only the tile-load wait times out
does not proceed as if the wait had succeeded: it exits with code 1 and
writes no output, while the otherwise-identical run whose tile wait
succeeds exits 0 and writes the file. -/
theorem tiles_timeout_differs_from_success :
    (run wTilesTimeout).exitCode = 1 ∧
    (run wTilesTimeout).outputWritten = false ∧
    (run wAllOk).exitCode = 0 ∧
    (run wAllOk).outputWritten = true := by
  refine ⟨?_, ?_, ?_, ?_⟩ <;> rfl

/-- C2 (amended): a timeout of the tile-load wait is fatal like any other
gate, the best-effort comment notwithstanding: the run exits with code 1,
writes no output, and logs the failure. -/
theorem tiles_timeout_fatal (w : World)
    (h1 : w.inputExists = true) (h2 : w.navOk = true) (h3 : w.selectorOk = true)
    (h4 : w.contentOk = true) (h5 : w.tilesOk = false) :
    (run w).exitCode = 1 ∧ (run w).outputWritten = false ∧
    (run w).stderrLines = ["Screenshot failed: " ++ errText JsError.tilesTimeout] := by
  simp [run, tryBody, h1, h2, h3, h4, h5]

/-- Witness for the amended C2 at the concrete world wTilesTimeout. -/
theorem tiles_timeout_fatal_witness :
    (run wTilesTimeout).exitCode = 1 ∧ (run wTilesTimeout).outputWritten = false ∧
    (run wTilesTimeout).stderrLines =
      ["Screenshot failed: " ++ errText JsError.tilesTimeout] :=
  tiles_timeout_fatal wTilesTimeout rfl rfl rfl rfl rfl

/-- C3: when the input file does not exist the run exits with code 1,
prints the diagnostic naming the generator step, writes no output, and the
browser is never launched (process.exit(1) terminates the process before
puppeteer.launch is reached). -/
theorem missing_input_exits_before_launch (w : World)
    (h : w.inputExists = false) :
    (run w).exitCode = 1 ∧ (run w).outputWritten = false ∧
    (run w).launches = 0 ∧ (run w).shot = none ∧
    (run w).stderrLines = [missingInputMsg] ∧
    (run w).trace = [Ev.checkInput, Ev.logFailed] := by
  simp [run, h]

/-- Witness for C3 at the concrete world wNoInput. -/
theorem missing_input_exits_before_launch_witness :
    (run wNoInput).exitCode = 1 ∧ (run wNoInput).outputWritten = false ∧
    (run wNoInput).launches = 0 ∧ (run wNoInput).shot = none ∧
    (run wNoInput).stderrLines = [missingInputMsg] ∧
    (run wNoInput).trace = [Ev.checkInput, Ev.logFailed] :=
  missing_input_exits_before_launch wNoInput rfl

/-- C4: the output file is written exactly when the whole readiness
sequence succeeded (input present, navigation, both waitForFunction gates
and the selector wait within bound, and the element still present at the
re-check); in particular every failing run (exit code nonzero) writes
nothing, so an existing output file is never overwritten on failure. -/
theorem output_only_after_full_success (w : World) :
    ((run w).outputWritten = true ↔
      (w.inputExists = true ∧ w.navOk = true ∧ w.selectorOk = true ∧
       w.contentOk = true ∧ w.tilesOk = true ∧ w.mapElBox.isSome = true)) ∧
    ((run w).exitCode ≠ 0 → (run w).outputWritten = false) := by
  rcases w with ⟨c, i, n, s, ct, tl, box⟩
  cases i <;> cases n <;> cases s <;> cases ct <;> cases tl <;> cases box <;>
    simp [run, tryBody]

/-- Witness for C4: at wAllOk every gate holds, and the output is written. -/
theorem output_only_after_full_success_witness :
    (run wAllOk).outputWritten = true :=
  (output_only_after_full_success wAllOk).1.mpr
    ⟨rfl, rfl, rfl, rfl, rfl, rfl⟩

/-- C5: every run's trace is a subsequence of the one master step order
(launch, navigate with its 120000 ms bound, the three 60000 ms waits, the
600 ms settle, resize, the 100 ms settle, re-check, screenshot, close); no
step ever occurs twice (no retries); a fully successful run performs
exactly the whole order; and if any wait gate fails its single bounded
attempt the run exits with code 1. -/
theorem steps_sequential_no_retries (w : World) :
    (run w).trace.Sublist masterTrace ∧
    (∀ e : Ev, (run w).trace.count e ≤ 1) ∧
    (w.inputExists = true → w.navOk = true → w.selectorOk = true →
      w.contentOk = true → w.tilesOk = true → w.mapElBox.isSome = true →
      (run w).trace = successTrace) ∧
    (¬ (w.navOk = true ∧ w.selectorOk = true ∧ w.contentOk = true ∧
        w.tilesOk = true ∧ w.mapElBox.isSome = true) →
      (run w).exitCode = 1) := by
  refine ⟨run_trace_sublist w, ?_, ?_, ?_⟩
  · intro e
    exact le_trans ((run_trace_sublist w).count_le e)
      (List.nodup_iff_count_le_one.mp masterTrace_nodup e)
  · rcases w with ⟨c, i, n, s, ct, tl, box⟩
    intro h1 h2 h3 h4 h5 h6
    subst h1; subst h2; subst h3; subst h4; subst h5
    rcases box with _ | b
    · simp at h6
    · simp [run, tryBody, successTrace]
  · rcases w with ⟨c, i, n, s, ct, tl, box⟩
    intro h
    cases i <;> cases n <;> cases s <;> cases ct <;> cases tl <;> cases box <;>
      simp_all [run, tryBody]

/-- Witness for C5 at the concrete world wAllOk. -/
theorem steps_sequential_no_retries_witness :
    (run wAllOk).trace.Sublist masterTrace ∧
    (run wAllOk).trace.count Ev.checkInput ≤ 1 ∧
    (run wAllOk).trace = successTrace :=
  ⟨(steps_sequential_no_retries wAllOk).1,
   (steps_sequential_no_retries wAllOk).2.1 Ev.checkInput,
   (steps_sequential_no_retries wAllOk).2.2.1 rfl rfl rfl rfl rfl rfl⟩

/-- C6: the content gate succeeds within its 60000 ms bound exactly when,
at some polled instant within the bound, the composite predicate holds: the
global ACA_DB object is truthy AND its latest field is truthy AND at least
one .iata-tt element is in the DOM; and a run whose content gate exceeds
the bound exits with code 1. -/
theorem content_gate_iff_and_fatal :
    (∀ page : Nat → PageState,
      ((waitForFn (fun t => contentReady (page t)) contentTimeoutMs).isSome = true ↔
        ∃ t, t ≤ contentTimeoutMs ∧ (page t).acaDBTruthy = true ∧
          (page t).acaLatestTruthy = true ∧ 0 < (page t).iataTTCount)) ∧
    (∀ w : World, w.contentOk = false → (run w).exitCode = 1) := by
  constructor
  · intro page
    rw [waitForFn, pollFirst_isSome_iff]
    apply exists_congr
    intro t
    simp [contentReady, Bool.and_eq_true, decide_eq_true_eq, Nat.zero_le, and_assoc]
  · rintro ⟨c, i, n, s, ct, tl, box⟩ h
    simp only at h
    subst h
    cases i <;> cases n <;> cases s <;> cases tl <;> cases box <;>
      simp [run, tryBody]

/-- Witness for C6: a page ready from the first instant passes the gate,
and the concrete world wContentTimeout exits with code 1. -/
theorem content_gate_iff_and_fatal_witness :
    (waitForFn (fun t => contentReady (pageReadyNow t)) contentTimeoutMs).isSome = true ∧
    (run wContentTimeout).exitCode = 1 :=
  ⟨(content_gate_iff_and_fatal.1 pageReadyNow).mpr
      ⟨0, Nat.zero_le _, rfl, rfl, Nat.zero_lt_one⟩,
   content_gate_iff_and_fatal.2 wContentTimeout rfl⟩

/-- C7: on a successful run whose map container fills the configured
viewport, the captured PNG measures (width x scale, height x scale); under
PNG_W=800 PNG_H=600 PNG_SCALE=1 the image is 800x600, and with all three
variables unset the 2400x1600x2 defaults yield 4800x3200. -/
theorem png_dims_viewport_times_scale :
    (∀ (w : World) (wd ht : ℤ) (sc : ℚ),
      WIDTH w.ctx.env = some wd → HEIGHT w.ctx.env = some ht →
      SCALE w.ctx.env = some sc →
      w.mapElBox = some ((wd : ℚ), (ht : ℚ)) →
      w.inputExists = true → w.navOk = true → w.selectorOk = true →
      w.contentOk = true → w.tilesOk = true →
      (run w).exitCode = 0 ∧
      (run w).shot = some { clip := ((wd : ℚ), (ht : ℚ))
                            fullPage := false
                            dims := some ((wd : ℚ) * sc, (ht : ℚ) * sc)
                            path := outputPath w.ctx }) ∧
    (run wOverride).shot.map Shot.dims = some (some ((800 : ℚ), (600 : ℚ))) ∧
    (run wAllOk).shot.map Shot.dims = some (some ((4800 : ℚ), (3200 : ℚ))) := by
  refine ⟨?_, ?_, ?_⟩
  · intro w wd ht sc hW hH hS hbox h1 h2 h3 h4 h5
    constructor
    · simp [run, tryBody, h1, h2, h3, h4, h5, hbox]
    · simp [run, tryBody, h1, h2, h3, h4, h5, hbox, hS]
  · have hS := SCALE_envOverride
    simp only [wOverride, wAllOk, ctx0] at hS ⊢
    simp [run, tryBody, hS]
  · have hS := SCALE_default
    simp only [wAllOk, ctx0] at hS ⊢
    simp [run, tryBody, hS]
    norm_num

/-- Witness for C7's universal part, instantiated at wOverride. -/
theorem png_dims_viewport_times_scale_witness :
    (run wOverride).exitCode = 0 ∧
    (run wOverride).shot = some { clip := (((800 : ℤ) : ℚ), ((600 : ℤ) : ℚ))
                                  fullPage := false
                                  dims := some (((800 : ℤ) : ℚ) * 1, ((600 : ℤ) : ℚ) * 1)
                                  path := outputPath wOverride.ctx } :=
  png_dims_viewport_times_scale.1 wOverride 800 600 1 (by decide) (by decide)
    SCALE_envOverride (by simp [wOverride, wAllOk]) rfl rfl rfl rfl rfl

/-- C8: after the settles the map container is looked up again; if it is
absent the run fails with the element-not-found error, exit code 1 and no
output; if it is present the screenshot is clipped to the element bounding
box (never the full page) and written to the output path. -/
theorem recheck_element_scoped_shot (w : World)
    (h1 : w.inputExists = true) (h2 : w.navOk = true) (h3 : w.selectorOk = true)
    (h4 : w.contentOk = true) (h5 : w.tilesOk = true) :
    (w.mapElBox = none →
      (run w).exitCode = 1 ∧ (run w).outputWritten = false ∧
      (run w).shot = none ∧
      (run w).stderrLines = ["Screenshot failed: " ++ errText JsError.mapElNotFound]) ∧
    (∀ b, w.mapElBox = some b →
      (run w).exitCode = 0 ∧ (run w).outputWritten = true ∧
      (run w).shot = some { clip := b
                            fullPage := false
                            dims := (SCALE w.ctx.env).map (fun s => (b.1 * s, b.2 * s))
                            path := outputPath w.ctx }) := by
  constructor
  · intro hbox
    simp [run, tryBody, h1, h2, h3, h4, h5, hbox]
  · intro b hbox
    simp [run, tryBody, h1, h2, h3, h4, h5, hbox]

/-- Witness for C8 at the concrete world wNoMapEl. -/
theorem recheck_element_scoped_shot_witness :
    (run wNoMapEl).exitCode = 1 ∧ (run wNoMapEl).outputWritten = false ∧
    (run wNoMapEl).shot = none ∧
    (run wNoMapEl).stderrLines =
      ["Screenshot failed: " ++ errText JsError.mapElNotFound] :=
  (recheck_element_scoped_shot wNoMapEl rfl rfl rfl rfl rfl).1 rfl

/-- C9: unset or empty environment variables fall back to the defaults via
the falsy-string idiom, while a non-empty unparsable string yields NaN
(none), which is passed into the viewport with no validation or fallback;
PNG_W is parsed as a base-10 integer (the fractional part of "2.5" is
dropped) while PNG_SCALE is parsed as a float ("2.5" stays 5/2); and for
every non-empty string the viewport fields are exactly the raw parse
results. -/
theorem env_parsing_edge_cases :
    WIDTH {} = some 2400 ∧ HEIGHT {} = some 1600 ∧ SCALE {} = some 2 ∧
    WIDTH { PNG_W := some "" } = some 2400 ∧
    SCALE { PNG_SCALE := some "" } = some 2 ∧
    WIDTH { PNG_W := some "abc" } = none ∧
    (defaultViewport { PNG_W := some "abc" }).width = none ∧
    WIDTH { PNG_W := some "2.5" } = some 2 ∧
    SCALE { PNG_SCALE := some "2.5" } = some (5 / 2 : ℚ) ∧
    (∀ s : String, ¬ s = "" →
      defaultViewport { PNG_W := some s, PNG_H := some s, PNG_SCALE := some s } =
        { width := parseIntJS s, height := parseIntJS s,
          deviceScaleFactor := parseFloatJS s }) := by
  refine ⟨by decide, by decide, SCALE_default, by decide, ?_, by decide, by decide,
    by decide, ?_, ?_⟩
  · have h : floatParts "2" = some (false, 2, 0) := by decide
    simp [SCALE, jsOrDefault, parseFloatJS, h]
  · have h : floatParts "2.5" = some (false, 25, 1) := by decide
    simp [SCALE, jsOrDefault, parseFloatJS, h]
    norm_num
  · intro s hs
    simp [defaultViewport, WIDTH, HEIGHT, SCALE, jsOrDefault, hs]

/-- Witness for C9's universal part at the string "abc". -/
theorem env_parsing_edge_cases_witness :
    defaultViewport { PNG_W := some "abc", PNG_H := some "abc",
                      PNG_SCALE := some "abc" } =
      { width := parseIntJS "abc", height := parseIntJS "abc",
        deviceScaleFactor := parseFloatJS "abc" } :=
  env_parsing_edge_cases.2.2.2.2.2.2.2.2.2 "abc" (by decide)

/-- Two invocation contexts sharing a script directory but differing in
working directory, arguments and environment. -/
def ctxA : Ctx :=
  { cwd := { segs := ["a"] }
    scriptDir := { segs := ["repo", "scripts"] }
    argv := ["node", "screenshot.js"]
    env := {} }

/-- Companion context to ctxA with a different cwd, argv and env. -/
def ctxB : Ctx :=
  { cwd := { segs := ["b", "c"] }
    scriptDir := { segs := ["repo", "scripts"] }
    argv := []
    env := envOverride }

/-- C10: the input and output paths are script-directory/../docs/index.html
and script-directory/../docs/aca_map.png, fixed functions of the script
file location alone: two contexts with the same script directory resolve
identical paths whatever their cwd, argv or environment. -/
theorem paths_from_script_dir_only :
    (∀ c : Ctx,
      inputPath c = { segs := c.scriptDir.segs.dropLast ++ ["docs", "index.html"] } ∧
      outputPath c = { segs := c.scriptDir.segs.dropLast ++ ["docs", "aca_map.png"] }) ∧
    (∀ c c2 : Ctx, c.scriptDir = c2.scriptDir →
      inputPath c = inputPath c2 ∧ outputPath c = outputPath c2) := by
  refine ⟨fun c => ⟨inputPath_eq c, outputPath_eq c⟩, fun c c2 h => ⟨?_, ?_⟩⟩
  · rw [inputPath_eq, inputPath_eq, h]
  · rw [outputPath_eq, outputPath_eq, h]

/-- Witness for C10 at the concrete contexts ctxA and ctxB. -/
theorem paths_from_script_dir_only_witness :
    inputPath ctxA = inputPath ctxB ∧ outputPath ctxA = outputPath ctxB :=
  paths_from_script_dir_only.2 ctxA ctxB rfl

end ACA
